import Mathlib

/-!
Shallow embedding of the moov-go client library and proofs about it.

The Go sources embedded here are the call-builder / call-status module
(`CallStatus`, `callBuilder`, `newCall`, the option constructors, the
`Completed*OrError` combinators), the transfer endpoints
(`CreateTransfer`, `ListTransfers`, `RefundTransfer`, `ReverseTransfer`)
and the bank-account endpoints (`CreateBankAccount`, `GetBankAccount`,
`DeleteBankAccount`, `MicroDepositConfirm`).

Modelling conventions:
- Go errors are values of the inductive `GoError`; a Go `error` result is
  `Option GoError` with `none` standing for the nil error.
- Go maps from string to string are association lists where assignment is
  `mapSet` (overwrite the existing key or append).
- `url.Values` is an association list built by `valuesAdd` (append).
- Fallible Go functions are state passing over `Except GoError`.
- External collaborators (the HTTP transport, `encoding/json`, `time`)
  are modelled observationally: a response carries the outcomes of the
  operations the embedded code performs on it.
-/

namespace Moov

/-- Errors of the library. `ErrDuplicateBankAccount` and
`ErrNoMicroDeposit` are declared in `bank_account.go` via `errors.New`;
the remaining named errors (`ErrXIdempotencyKey`, `ErrAmountIncorrect`,
`ErrRateLimit`, `ErrRequestBody`, `ErrDefault(statusCode)`) are declared
in files of this repository outside the excerpt and are modelled from the
spec as distinct named error values. `classified` is the error produced by
converting a classified response via `CallResponse.Error`; `jsonError`
stands for an error coming out of the JSON facility. -/
inductive GoError where
  | errXIdempotencyKey : GoError
  | errRequestBody : GoError
  | errRateLimit : GoError
  | errDefault (statusCode : Int) : GoError
  | errDuplicateBankAccount : GoError
  | errNoMicroDeposit : GoError
  | errAmountIncorrect : GoError
  | classified (status : String) : GoError
  | jsonError (msg : String) : GoError
deriving DecidableEq

/-- Modelled from the spec: Go `time.Time` is an external type; the only
operations the embedded code performs on a time are `IsZero` and
`Format(time.RFC3339)`, so a time is modelled by these two observations. -/
structure GoTime where
  IsZero : Bool
  formatRFC3339 : String
deriving DecidableEq

/-- Zero value of `time.Time`: `IsZero` holds and RFC3339 formatting
renders year one. -/
def GoTime.zero : GoTime :=
  { IsZero := true, formatRFC3339 := "0001-01-01T00:00:00Z" }

/-- Assignment `m[k] = v` on a Go `map[string]string`: overwrite the
binding if the key is present, otherwise add it. -/
def mapSet : List (String × String) → String → String → List (String × String)
  | [], k, v => [(k, v)]
  | (k', v') :: rest, k, v =>
    if k' = k then (k, v) :: rest else (k', v') :: mapSet rest k v

/-- Lookup in an association list (first binding wins, as in
`url.Values.Get`). -/
def valuesGet : List (String × String) → String → Option String
  | [], _ => none
  | (k', v') :: rest, k => if k' = k then some v' else valuesGet rest k

/-- `url.Values.Add`: append the pair at the end. -/
def valuesAdd (values : List (String × String)) (key value : String) :
    List (String × String) :=
  values ++ [(key, value)]

/-- Model of `fmt.Sprintf` restricted to format strings whose only verbs
are `%s`, which is how every path template in the embedded code uses it:
each `%s` in the format is replaced by the next argument in order. -/
def sprintfS (fmtStr : String) (args : List String) : String :=
  String.mk (go fmtStr.data args)
where
  go : List Char → List String → List Char
    | [], _ => []
    | '%' :: 's' :: rest, a :: restArgs => a.data ++ go rest restArgs
    | c :: rest, restArgs => c :: go rest restArgs

/-! Embedding of the call-status and call-builder module. -/

/-- `CallStatus` as in the source: a name plus a retryability flag. -/
structure CallStatus where
  Name : String
  Retryable : Bool
deriving DecidableEq

/-- Constructor helper `callStatus` from the source. -/
def callStatus (name : String) (retryable : Bool) : CallStatus :=
  { Name := name, Retryable := retryable }

def StatusCompleted : CallStatus := callStatus "completed" false

def StatusStarted : CallStatus := callStatus "started" true

def StatusBadRequest : CallStatus := callStatus "bad_request" false

def StatusStateConflict : CallStatus := callStatus "state_conflict" false

def StatusFailedValidation : CallStatus := callStatus "failed_validation" false

def StatusNotFound : CallStatus := callStatus "not_found" false

def StatusUnauthenticated : CallStatus := callStatus "unauthenticated" false

def StatusUnauthorized : CallStatus := callStatus "unauthorized" false

def StatusRateLimited : CallStatus := callStatus "rate_limited" true

def StatusServerError : CallStatus := callStatus "server_error" true

/-- `callBuilder`: the request in progress. The body is the marshalled
byte payload when one has been attached. -/
structure callBuilder where
  method : String
  path : String
  params : List (String × String)
  headers : List (String × String)
  token : Option String
  body : Option (List Nat)
deriving DecidableEq

/-- The builder `newCall` starts from: zero-valued method and path, empty
param and header maps, no token, no body. -/
def initialCallBuilder : callBuilder :=
  { method := "", path := "", params := [], headers := [], token := none,
    body := none }

/-- A call option: in Go it mutates the shared builder and may fail; here
it is state passing over `Except`. -/
abbrev callArg := callBuilder → Except GoError callBuilder

/-- `type EndpointArg callArg` from the source. -/
abbrev EndpointArg := callArg

/-- `prependArgs(opts, args...)`: append each of `opts` onto `args`, so
the result is `args ++ opts`. -/
def prependArgs (opts : List callArg) (args : List callArg) : List callArg :=
  args ++ opts

/-- The loop body of `newCall`: apply each option in order to the builder,
stopping with the error of the first option that fails. -/
def applyArgs : List callArg → callBuilder → Except GoError callBuilder
  | [], call => Except.ok call
  | a :: rest, call =>
    match a call with
    | Except.error e => Except.error e
    | Except.ok call1 => applyArgs rest call1

/-- `newCall`: start from the fresh builder, put the endpoint option in
front of the caller options via `prependArgs`, and apply them in order. -/
def newCall (endpoint : EndpointArg) (args : List callArg) :
    Except GoError callBuilder :=
  applyArgs (prependArgs args [endpoint]) initialCallBuilder

/-- `Endpoint(method, pathFmt, args...)`: set the method and the
`Sprintf`-formatted path. -/
def Endpoint (method : String) (pathFmt : String) (args : List String) :
    EndpointArg :=
  fun call => Except.ok { call with method := method,
                                    path := sprintfS pathFmt args }

/-- `JsonBody(body)`: `json.Marshal` is an external facility, so the
option is modelled by the outcome of marshalling the body value. On
success the source sets the header key literally spelled
`"Context-Type"` and stores the payload as the body; on failure the
marshalling error is returned. -/
def JsonBody (marshalResult : Except GoError (List Nat)) : callArg :=
  fun call =>
    match marshalResult with
    | Except.error e => Except.error e
    | Except.ok payload =>
      Except.ok { call with
        headers := mapSet call.headers "Context-Type" "application/json",
        body := some payload }

/-- `AcceptJson()`: set the Accept header. -/
def AcceptJson : callArg :=
  fun call =>
    Except.ok { call with
      headers := mapSet call.headers "Accept" "application/json" }

/-- `WaitFor(state)`: set the X-Wait-For header. -/
def WaitFor (state : String) : callArg :=
  fun call =>
    Except.ok { call with
      headers := mapSet call.headers "X-Wait-For" state }

/-- Modelled from the spec: the concrete implementation of the
`CallResponse` interface lives outside the excerpt, so a response is
modelled observationally by the results of the operations the embedded
code performs on it: its classified `Status`, the outcome of
`Unmarshal` into a single object of type `α`, the outcome of `Unmarshal`
into a slice of `α`, and the classified error produced by `Error()`
(per the spec the non-completed classifications convert to an error). -/
structure CallResponse (α : Type) where
  Status : CallStatus
  unmarshalObject : Except GoError α
  unmarshalList : Except GoError (List α)
  Error : GoError

/-- `UnmarshalObjectResponse[A]`: allocate a zero `A`, unmarshal into it;
on failure return the nil pointer and the error, on success the object
and nil error. -/
def UnmarshalObjectResponse {α : Type} (resp : CallResponse α) :
    Option α × Option GoError :=
  match resp.unmarshalObject with
  | Except.error e => (none, some e)
  | Except.ok item => (some item, none)

/-- `UnmarshalListResponse[A]`: unmarshal into a slice; on failure return
the nil slice and the error. -/
def UnmarshalListResponse {α : Type} (resp : CallResponse α) :
    Option (List α) × Option GoError :=
  match resp.unmarshalList with
  | Except.error e => (none, some e)
  | Except.ok item => (some item, none)

/-- `CompletedNilOrError`: nil on the completed status, otherwise the
classified error of the response. -/
def CompletedNilOrError {α : Type} (resp : CallResponse α) : Option GoError :=
  if resp.Status = StatusCompleted then none else some resp.Error

/-- `CompletedObjectOrError`: on the completed status unmarshal the
object, otherwise the nil pointer and the classified error. -/
def CompletedObjectOrError {α : Type} (resp : CallResponse α) :
    Option α × Option GoError :=
  if resp.Status = StatusCompleted then UnmarshalObjectResponse resp
  else (none, some resp.Error)

/-- `CompletedListOrError`: on the completed status unmarshal the list,
otherwise the nil slice and the classified error. -/
def CompletedListOrError {α : Type} (resp : CallResponse α) :
    Option (List α) × Option GoError :=
  if resp.Status = StatusCompleted then UnmarshalListResponse resp
  else (none, some resp.Error)

/-! Embedding of the data records of `transfer.go` and `bank_account.go`.
Record fields are named by their JSON tags (the Go exported names
lower-cased at the first letter), avoiding clashes between field and
type names. -/

/-- `Amount` record. -/
structure Amount where
  currency : String
  value : Int
deriving DecidableEq

/-- Zero value of `Amount`. -/
def Amount.zero : Amount := { currency := "", value := 0 }

/-- `FacilitatorFee` record. -/
structure FacilitatorFee where
  total : Int
  totalDecimal : String
  markup : Int
  markupDecimal : String
deriving DecidableEq

/-- Zero value of `FacilitatorFee`. -/
def FacilitatorFee.zero : FacilitatorFee :=
  { total := 0, totalDecimal := "", markup := 0, markupDecimal := "" }

/-- `MoovFeeDetails` record. -/
structure MoovFeeDetails where
  cardScheme : String
  interchange : String
  moovProcessing : String
deriving DecidableEq

/-- Modelled from the spec: `Wallet` is a payment-method-specific payload
record declared outside the excerpt; no embedded code inspects its
fields, so it is modelled as an opaque record. -/
structure Wallet where
deriving DecidableEq

/-- Modelled from the spec: `Card` payment-method payload, opaque here. -/
structure Card where
deriving DecidableEq

/-- Modelled from the spec: `ApplePay` payment-method payload, opaque
here. -/
structure ApplePay where
deriving DecidableEq

/-- Modelled from the spec: `CardDetails` payment-method payload, opaque
here. -/
structure CardDetails where
deriving DecidableEq

/-- Zero value of `CardDetails`. -/
def CardDetails.zero : CardDetails := {}

/-- `Correction` record of `bank_account.go`. -/
structure Correction where
  code : String
  reason : String
  description : String
deriving DecidableEq

/-- `Return` record of `bank_account.go`. -/
structure Return where
  code : String
  reason : String
  description : String
deriving DecidableEq

/-- `ACHStatusUpdates` record of `bank_account.go`. -/
structure ACHStatusUpdates where
  initiated : GoTime
  originated : GoTime
  corrected : GoTime
  returned : GoTime
  completed : GoTime
deriving DecidableEq

/-- `AchDetails` record of `bank_account.go`; the field with JSON tag
`return` is called `achReturn` because `return` is reserved here. -/
structure AchDetails where
  status : String
  traceNumber : String
  achReturn : Return
  correction : Correction
  companyEntryDescription : String
  originatingCompanyName : String
  statusUpdates : ACHStatusUpdates
  debitHoldPeriod : String
deriving DecidableEq

/-- `BankAccount` record of `bank_account.go`. -/
structure BankAccount where
  bankAccountID : String
  fingerprint : String
  status : String
  holderName : String
  holderType : String
  bankName : String
  bankAccountType : String
  accountNumber : String
  routingNumber : String
  lastFourAccountNumber : String
deriving DecidableEq

/-- `Refund` record. -/
structure Refund where
  refundID : String
  createdOn : GoTime
  updatedOn : GoTime
  status : String
  failureCode : String
  amount : Amount
  cardDetails : CardDetails
deriving DecidableEq

/-- Zero value of `Refund`, as produced by `var respRefund Refund`. -/
def Refund.zero : Refund :=
  { refundID := "", createdOn := GoTime.zero, updatedOn := GoTime.zero,
    status := "", failureCode := "", amount := Amount.zero,
    cardDetails := CardDetails.zero }

/-- Modelled from the spec: the transfer reference inside a `Dispute`
(the test body carries `transfer.transferID`). -/
structure DisputeTransfer where
  transferID : String
deriving DecidableEq

/-- Modelled from the spec: the `Dispute` record is declared outside the
excerpt; its fields are taken from the JSON body exercised by
`disputes_test.go` (`amount`, `createdOn`, `disputeID`,
`networkReasonCode`, `networkReasonDescription`, `respondBy`, `status`,
`transfer`). -/
structure Dispute where
  amount : Amount
  createdOn : GoTime
  disputeID : String
  networkReasonCode : Option String
  networkReasonDescription : Option String
  respondBy : GoTime
  status : String
  transfer : DisputeTransfer
deriving DecidableEq

/-- `TransferAccount` record. -/
structure TransferAccount where
  accountID : String
  email : String
  displayName : String
deriving DecidableEq

/-- `Source` record. -/
structure Source where
  paymentMethodID : String
  paymentMethodType : String
  account : TransferAccount
  bankAccount : BankAccount
  wallet : Wallet
  card : Card
  applePay : ApplePay
  achDetails : AchDetails
  cardDetails : CardDetails
  transferID : String
deriving DecidableEq

/-- `Destination` record. -/
structure Destination where
  paymentMethodID : String
  paymentMethodType : String
  account : TransferAccount
  bankAccount : BankAccount
  wallet : Wallet
  card : Card
  applePay : ApplePay
  achDetails : AchDetails
  cardDetails : CardDetails
deriving DecidableEq

/-- `SynchronousTransfer` record. -/
structure SynchronousTransfer where
  transferID : String
  createdOn : GoTime
  completedOn : GoTime
  status : String
  failureReason : String
  amount : Amount
  description : String
  metadata : List (String × String)
  facilitatorFee : FacilitatorFee
  moovFee : Int
  moovFeeDecimal : String
  moovFeeDetails : MoovFeeDetails
  groupID : String
  refundedAmount : Amount
  refunds : List Refund
  disputedAmount : Amount
  disputes : List Dispute
  source : Source
  destination : Destination
deriving DecidableEq

/-- `AsynchronousTransfer` record: it has exactly the two fields
`transferID` and `createdOn`. -/
structure AsynchronousTransfer where
  transferID : String
  createdOn : GoTime
deriving DecidableEq

/-- `SearchQueryPayload` record (filters of `ListTransfers`); Go `int`
fields are `Int`. -/
structure SearchQueryPayload where
  AccountIDs : List String
  Status : String
  StartDateTime : GoTime
  EndDateTime : GoTime
  GroupID : String
  Count : Int
  Skip : Int
  Refunded : Bool
  Disputed : Bool
deriving DecidableEq

/-- `RefundPayload` record. -/
structure RefundPayload where
  amount : Int
deriving DecidableEq

/-- `RefundStatus` record. -/
structure RefundStatus where
  status : String
  createdOn : GoTime
deriving DecidableEq

/-- Zero value of `RefundStatus`. -/
def RefundStatus.zero : RefundStatus :=
  { status := "", createdOn := GoTime.zero }

/-- `CanceledTransfer` record. -/
structure CanceledTransfer where
  cancellation : RefundStatus
  refund : Refund
deriving DecidableEq

/-- Zero value of `CanceledTransfer`, as produced by
`CanceledTransfer{}`. -/
def CanceledTransfer.zero : CanceledTransfer :=
  { cancellation := RefundStatus.zero, refund := Refund.zero }

/-- `CreateTransfer` request record. -/
structure CreateTransfer where
  source : Source
  destination : Destination
  amount : Amount
  facilitatorFee : FacilitatorFee
  description : String
  metadata : List (String × String)
deriving DecidableEq

/-! Embedding of the endpoint functions. The HTTP transport
(`CallHttp` / `GetHTTPResponse`) is an external collaborator: each
endpoint embedding takes the transport outcome as an argument — either a
transport error returned verbatim, or a response — and performs the
switch the source performs on it. -/

/-- Modelled from the spec: the path template constants are declared
outside the excerpt; the spec names the paths `/transfers` and
`/accounts/{id}/bank-accounts`. -/
def pathTransfers : String := "transfers"

/-- Modelled from the spec: bank-accounts path template, one `%s` verb
for the account ID as used by `Endpoint` in `bank_account.go`. -/
def pathBankAccounts : String := "accounts/%s/bank-accounts"

/-- Modelled from the spec: micro-deposits path template, two `%s` verbs
(account ID, bank-account ID) as used by `Endpoint` in
`bank_account.go`. -/
def pathMicroDeposits : String := "accounts/%s/bank-accounts/%s/micro-deposits"

/-- Modelled from the spec: the response of `CallHttp` as observed by
`Client.CreateTransfer`, which calls `UnmarshalObjectResponse` at the two
types `SynchronousTransfer` and `AsynchronousTransfer`; the response is
modelled by its classified status, the outcomes of those two unmarshal
instantiations, and the classified error of `Error()`. -/
structure TransferCallResponse where
  Status : CallStatus
  unmarshalSync : Except GoError SynchronousTransfer
  unmarshalAsync : Except GoError AsynchronousTransfer
  Error : GoError

/-- `UnmarshalObjectResponse[SynchronousTransfer]` as invoked by
`Client.CreateTransfer`. -/
def UnmarshalSyncResponse (resp : TransferCallResponse) :
    Option SynchronousTransfer × Option GoError :=
  match resp.unmarshalSync with
  | Except.error e => (none, some e)
  | Except.ok item => (some item, none)

/-- `UnmarshalObjectResponse[AsynchronousTransfer]` as invoked by
`Client.CreateTransfer`. -/
def UnmarshalAsyncResponse (resp : TransferCallResponse) :
    Option AsynchronousTransfer × Option GoError :=
  match resp.unmarshalAsync with
  | Except.error e => (none, some e)
  | Except.ok item => (some item, none)

/-- Option list built by `Client.CreateTransfer`: accept JSON, the JSON
body of the transfer, and, when `isSync`, the wait-for-rail-response
header appended last. -/
def CreateTransferArgs (marshalTransfer : Except GoError (List Nat))
    (isSync : Bool) : List callArg :=
  let args := [AcceptJson, JsonBody marshalTransfer]
  if isSync then args ++ [WaitFor "rail-response"] else args

/-- Switch of `Client.CreateTransfer` on the transport outcome: a
transport error is returned verbatim; a completed response unmarshals the
synchronous transfer; a started response unmarshals the asynchronous
transfer; a state-conflict response returns `ErrXIdempotencyKey`; any
other status returns the classified error. The `isSync` flag only shapes
the request (`CreateTransferArgs`). -/
def Client.CreateTransfer (isSync : Bool)
    (callResult : Except GoError TransferCallResponse) :
    Option SynchronousTransfer × Option AsynchronousTransfer ×
      Option GoError :=
  match callResult with
  | Except.error e => (none, none, some e)
  | Except.ok resp =>
    if resp.Status = StatusCompleted then
      let r := UnmarshalSyncResponse resp
      (r.1, none, r.2)
    else if resp.Status = StatusStarted then
      let r := UnmarshalAsyncResponse resp
      (none, r.1, r.2)
    else if resp.Status = StatusStateConflict then
      (none, none, some GoError.errXIdempotencyKey)
    else
      (none, none, some resp.Error)

/-- One guarded `values.Add` step of `ListTransfers`. -/
def addIf (c : Prop) [Decidable c] (values : List (String × String))
    (key value : String) : List (String × String) :=
  if c then valuesAdd values key value else values

/-- Query parameters built by `Client.ListTransfers`: each filter is
added only under the source condition, in source order; account IDs are
joined with a comma; times are formatted RFC3339; counts are printed with
`fmt.Sprint`. The resulting list is what `url.Values.Encode` (an external
facility) serializes into the query string. -/
def ListTransfersValues (payload : SearchQueryPayload) :
    List (String × String) :=
  let values : List (String × String) := []
  let startDateTimeStr := payload.StartDateTime.formatRFC3339
  let endDateTimeStr := payload.EndDateTime.formatRFC3339
  let values := addIf (payload.AccountIDs.length > 0) values "accountIDs"
    (String.intercalate "," payload.AccountIDs)
  let values := addIf (payload.Status ≠ "") values "status" payload.Status
  let values := addIf (payload.StartDateTime.IsZero = false) values
    "startDateTime" startDateTimeStr
  let values := addIf (payload.EndDateTime.IsZero = false) values
    "endDateTime" endDateTimeStr
  let values := addIf (payload.GroupID ≠ "") values "groupID" payload.GroupID
  let values := addIf (payload.Count > 0) values "count"
    (toString payload.Count)
  let values := addIf (payload.Skip > 0) values "skip"
    (toString payload.Skip)
  let values := addIf (payload.Refunded = true) values "refunded" "true"
  let values := addIf (payload.Disputed = true) values "disputed" "true"
  values

/-- Modelled from the spec: the raw response of `GetHTTPResponse` as
observed by `RefundTransfer` / `ReverseTransfer`: its HTTP status code
and the outcome of `json.Unmarshal` of its body into a zero value of `α`
(the possibly updated value together with the error, `none` standing for
the nil error). -/
structure HttpResponse (α : Type) where
  statusCode : Int
  unmarshalBody : α × Option GoError

/-- Outcome of `var err error; _ = json.Unmarshal(body, &err)` in the
HTTP 400 branches of `RefundTransfer` and `ReverseTransfer`:
`json.Unmarshal` can never construct a value of the non-empty interface
type `error`, so the variable keeps its nil value, and the error returned
by `Unmarshal` itself is discarded by the blank assignment; the observed
result is the nil error whatever the body holds. -/
def unmarshalIntoErrorInterface : Option GoError := none

/-- Switch of `Client.RefundTransfer` on the transport outcome: transport
errors verbatim; 200/202 return the unmarshalled refund; 400 returns the
result of unmarshalling the body into a nil `error` interface; 409
returns `ErrXIdempotencyKey`; 422 `ErrRequestBody`; 429 `ErrRateLimit`;
anything else the default error with the status code. The `isSync` and
`amount` parameters only shape the request headers and payload. -/
def Client.RefundTransfer (isSync : Bool) (amount : Int)
    (transport : Except GoError (HttpResponse Refund)) :
    Refund × Option GoError :=
  let respRefund : Refund := Refund.zero
  match transport with
  | Except.error e => (respRefund, some e)
  | Except.ok r =>
    if r.statusCode = 200 ∨ r.statusCode = 202 then
      r.unmarshalBody
    else if r.statusCode = 400 then
      (respRefund, unmarshalIntoErrorInterface)
    else if r.statusCode = 409 then
      (respRefund, some GoError.errXIdempotencyKey)
    else if r.statusCode = 422 then
      (respRefund, some GoError.errRequestBody)
    else if r.statusCode = 429 then
      (respRefund, some GoError.errRateLimit)
    else
      (respRefund, some (GoError.errDefault r.statusCode))

/-- Switch of `Client.ReverseTransfer` on the transport outcome; same
status-code mapping as `Client.RefundTransfer`, decoding a
`CanceledTransfer`. -/
def Client.ReverseTransfer (amount : Int)
    (transport : Except GoError (HttpResponse CanceledTransfer)) :
    CanceledTransfer × Option GoError :=
  let respTransfer : CanceledTransfer := CanceledTransfer.zero
  match transport with
  | Except.error e => (respTransfer, some e)
  | Except.ok r =>
    if r.statusCode = 200 ∨ r.statusCode = 202 then
      r.unmarshalBody
    else if r.statusCode = 400 then
      (respTransfer, unmarshalIntoErrorInterface)
    else if r.statusCode = 409 then
      (respTransfer, some GoError.errXIdempotencyKey)
    else if r.statusCode = 422 then
      (respTransfer, some GoError.errRequestBody)
    else if r.statusCode = 429 then
      (respTransfer, some GoError.errRateLimit)
    else
      (respTransfer, some (GoError.errDefault r.statusCode))

/-- Switch of `Client.CreateBankAccount` on the transport outcome:
transport errors verbatim; completed goes through
`CompletedObjectOrError`; state conflict returns
`ErrDuplicateBankAccount`; anything else the classified error. -/
def Client.CreateBankAccount
    (callResult : Except GoError (CallResponse BankAccount)) :
    Option BankAccount × Option GoError :=
  match callResult with
  | Except.error e => (none, some e)
  | Except.ok resp =>
    if resp.Status = StatusCompleted then
      CompletedObjectOrError resp
    else if resp.Status = StatusStateConflict then
      (none, some GoError.errDuplicateBankAccount)
    else
      (none, some resp.Error)

/-- Request built by `Client.GetBankAccount`: a GET on the bank-accounts
path formatted with the account ID, accepting JSON. The `bankAccountID`
parameter appears in the Go signature but in no option. -/
def GetBankAccountRequest (accountID : String) (bankAccountID : String) :
    Except GoError callBuilder :=
  newCall (Endpoint "GET" pathBankAccounts [accountID]) [AcceptJson]

/-- Response handling of `Client.GetBankAccount`: transport errors
verbatim, otherwise `CompletedObjectOrError`. -/
def Client.GetBankAccount (accountID : String) (bankAccountID : String)
    (callResult : Except GoError (CallResponse BankAccount)) :
    Option BankAccount × Option GoError :=
  match callResult with
  | Except.error e => (none, some e)
  | Except.ok resp => CompletedObjectOrError resp

/-- Request built by `Client.DeleteBankAccount`: a DELETE on the
bank-accounts path formatted with the account ID, no further options.
The `bankAccountID` parameter appears in the Go signature but in no
option. -/
def DeleteBankAccountRequest (accountID : String) (bankAccountID : String) :
    Except GoError callBuilder :=
  newCall (Endpoint "DELETE" pathBankAccounts [accountID]) []

/-- Response handling of `Client.DeleteBankAccount`: transport errors
verbatim, otherwise `CompletedNilOrError`. -/
def Client.DeleteBankAccount (accountID : String) (bankAccountID : String)
    (callResult : Except GoError (CallResponse Unit)) : Option GoError :=
  match callResult with
  | Except.error e => some e
  | Except.ok resp => CompletedNilOrError resp

/-- Switch of `Client.MicroDepositConfirm` on the transport outcome:
transport errors verbatim; completed returns the nil error; not found
returns `ErrNoMicroDeposit`; state conflict returns `ErrAmountIncorrect`
(a named error declared outside the excerpt, modelled from the spec);
anything else the classified error. The response body is never
unmarshalled, so the response is observed at `Unit`. -/
def Client.MicroDepositConfirm
    (callResult : Except GoError (CallResponse Unit)) : Option GoError :=
  match callResult with
  | Except.error e => some e
  | Except.ok resp =>
    if resp.Status = StatusCompleted then none
    else if resp.Status = StatusNotFound then
      some GoError.errNoMicroDeposit
    else if resp.Status = StatusStateConflict then
      some GoError.errAmountIncorrect
    else
      some resp.Error

/-- The call options the source defines, as data: `Endpoint`, `JsonBody`,
`AcceptJson` and `WaitFor` are the only `callArg` constructors in the
embedded code. -/
inductive builderArg where
  | endpointArg (method : String) (pathFmt : String) (args : List String) :
      builderArg
  | jsonBodyArg (marshalResult : Except GoError (List Nat)) : builderArg
  | acceptJsonArg : builderArg
  | waitForArg (state : String) : builderArg

/-- Interpretation of a `builderArg` as the `callArg` the source
constructs. -/
def builderArg.toCallArg : builderArg → callArg
  | builderArg.endpointArg method pathFmt args => Endpoint method pathFmt args
  | builderArg.jsonBodyArg marshalResult => JsonBody marshalResult
  | builderArg.acceptJsonArg => AcceptJson
  | builderArg.waitForArg state => WaitFor state

/-- Concrete completed response used by the witness of C3. -/
def respC3completed : CallResponse Nat :=
  { Status := StatusCompleted, unmarshalObject := Except.ok 7,
    unmarshalList := Except.ok [1, 2],
    Error := GoError.classified "completed" }

/-- Concrete not-found response used by the witness of C3. -/
def respC3notFound : CallResponse Nat :=
  { Status := StatusNotFound,
    unmarshalObject := Except.error (GoError.jsonError "bad body"),
    unmarshalList := Except.error (GoError.jsonError "bad body"),
    Error := GoError.classified "not_found" }

/-! Go zero values of the remaining records, used to build concrete
responses in witnesses. -/

/-- Zero value of `MoovFeeDetails`. -/
def MoovFeeDetails.zero : MoovFeeDetails :=
  { cardScheme := "", interchange := "", moovProcessing := "" }

/-- Zero value of `TransferAccount`. -/
def TransferAccount.zero : TransferAccount :=
  { accountID := "", email := "", displayName := "" }

/-- Zero value of `Return`. -/
def Return.zero : Return := { code := "", reason := "", description := "" }

/-- Zero value of `Correction`. -/
def Correction.zero : Correction :=
  { code := "", reason := "", description := "" }

/-- Zero value of `ACHStatusUpdates`. -/
def ACHStatusUpdates.zero : ACHStatusUpdates :=
  { initiated := GoTime.zero, originated := GoTime.zero,
    corrected := GoTime.zero, returned := GoTime.zero,
    completed := GoTime.zero }

/-- Zero value of `AchDetails`. -/
def AchDetails.zero : AchDetails :=
  { status := "", traceNumber := "", achReturn := Return.zero,
    correction := Correction.zero, companyEntryDescription := "",
    originatingCompanyName := "", statusUpdates := ACHStatusUpdates.zero,
    debitHoldPeriod := "" }

/-- Zero value of `BankAccount`. -/
def BankAccount.zero : BankAccount :=
  { bankAccountID := "", fingerprint := "", status := "", holderName := "",
    holderType := "", bankName := "", bankAccountType := "",
    accountNumber := "", routingNumber := "", lastFourAccountNumber := "" }

/-- Zero value of `Source`. -/
def Source.zero : Source :=
  { paymentMethodID := "", paymentMethodType := "",
    account := TransferAccount.zero, bankAccount := BankAccount.zero,
    wallet := {}, card := {}, applePay := {},
    achDetails := AchDetails.zero, cardDetails := CardDetails.zero,
    transferID := "" }

/-- Zero value of `Destination`. -/
def Destination.zero : Destination :=
  { paymentMethodID := "", paymentMethodType := "",
    account := TransferAccount.zero, bankAccount := BankAccount.zero,
    wallet := {}, card := {}, applePay := {},
    achDetails := AchDetails.zero, cardDetails := CardDetails.zero }

/-- Zero value of `SynchronousTransfer`. -/
def SynchronousTransfer.zero : SynchronousTransfer :=
  { transferID := "", createdOn := GoTime.zero, completedOn := GoTime.zero,
    status := "", failureReason := "", amount := Amount.zero,
    description := "", metadata := [], facilitatorFee := FacilitatorFee.zero,
    moovFee := 0, moovFeeDecimal := "", moovFeeDetails := MoovFeeDetails.zero,
    groupID := "", refundedAmount := Amount.zero, refunds := [],
    disputedAmount := Amount.zero, disputes := [], source := Source.zero,
    destination := Destination.zero }

/-- Concrete completed create-transfer response for the witness of C4. -/
def respC4completed : TransferCallResponse :=
  { Status := StatusCompleted,
    unmarshalSync := Except.ok SynchronousTransfer.zero,
    unmarshalAsync := Except.error (GoError.jsonError "wrong shape"),
    Error := GoError.classified "completed" }

/-- Concrete started create-transfer response for the witness of C4. -/
def respC4started : TransferCallResponse :=
  { Status := StatusStarted,
    unmarshalSync := Except.error (GoError.jsonError "wrong shape"),
    unmarshalAsync :=
      Except.ok { transferID := "t-1", createdOn := GoTime.zero },
    Error := GoError.classified "started" }

/-- Concrete state-conflict create-transfer response for the witness of
C5. -/
def respC5conflict : TransferCallResponse :=
  { Status := StatusStateConflict,
    unmarshalSync := Except.error (GoError.jsonError "no body"),
    unmarshalAsync := Except.error (GoError.jsonError "no body"),
    Error := GoError.classified "state_conflict" }

/-- Concrete state-conflict bank-account response for the witness of
C7. -/
def respC7conflict : CallResponse BankAccount :=
  { Status := StatusStateConflict,
    unmarshalObject := Except.ok BankAccount.zero,
    unmarshalList := Except.ok [],
    Error := GoError.classified "state_conflict" }

/-- Concrete not-found micro-deposit response for the witness of C7. -/
def respC7notFound : CallResponse Unit :=
  { Status := StatusNotFound, unmarshalObject := Except.ok (),
    unmarshalList := Except.ok [],
    Error := GoError.classified "not_found" }

/-- Concrete state-conflict micro-deposit response for the witness of
C7. -/
def respC7amount : CallResponse Unit :=
  { Status := StatusStateConflict, unmarshalObject := Except.ok (),
    unmarshalList := Except.ok [],
    Error := GoError.classified "state_conflict" }

/-- Concrete failing option for the witness of C8: a JSON body whose
serialization fails. -/
def badC8 : callArg := JsonBody (Except.error (GoError.jsonError "boom"))

/-- Builder state reached by the witness of C8 after the endpoint and the
accept-JSON option. -/
def builderC8 : callBuilder :=
  { method := "POST", path := "transfers", params := [],
    headers := [("Accept", "application/json")], token := none,
    body := none }

/-- Builder reached by the witness of C9. -/
def builderC9 : callBuilder :=
  { method := "POST", path := "transfers", params := [],
    headers := [("Accept", "application/json"),
                ("Context-Type", "application/json")],
    token := none, body := some [1, 2] }

/-! Helper lemmas about the association-list operations. -/

theorem valuesGet_append (vs ws : List (String × String)) (k : String) :
    valuesGet (vs ++ ws) k =
      match valuesGet vs k with
      | some v => some v
      | none => valuesGet ws k := by
  induction vs with
  | nil => rfl
  | cons hd tl ih =>
    rcases hd with ⟨k', v'⟩
    by_cases h : k' = k
    · simp [valuesGet, h]
    · simp [valuesGet, h, ih]

theorem valuesGet_addIf_ne (c : Prop) [Decidable c]
    (vs : List (String × String)) (k v k' : String) (h : k ≠ k') :
    valuesGet (addIf c vs k v) k' = valuesGet vs k' := by
  unfold addIf valuesAdd
  split
  · rw [valuesGet_append]
    cases hv : valuesGet vs k'
    · simp [valuesGet, h]
    · simp
  · rfl

theorem valuesGet_addIf_eq (c : Prop) [Decidable c]
    (vs : List (String × String)) (k v : String)
    (hnone : valuesGet vs k = none) :
    valuesGet (addIf c vs k v) k = if c then some v else none := by
  unfold addIf valuesAdd
  split
  · rw [valuesGet_append, hnone]
    simp [valuesGet]
  · exact hnone

theorem valuesGet_mapSet_self (m : List (String × String)) (k v : String) :
    valuesGet (mapSet m k v) k = some v := by
  induction m with
  | nil => simp [mapSet, valuesGet]
  | cons hd tl ih =>
    rcases hd with ⟨k', v'⟩
    by_cases h : k' = k
    · simp [mapSet, h, valuesGet]
    · simp [mapSet, h, valuesGet, ih]

theorem valuesGet_mapSet_ne (m : List (String × String)) (k v k' : String)
    (h : k ≠ k') :
    valuesGet (mapSet m k v) k' = valuesGet m k' := by
  induction m with
  | nil => simp [mapSet, valuesGet, h]
  | cons hd tl ih =>
    rcases hd with ⟨k2, v2⟩
    by_cases h2 : k2 = k
    · subst h2
      simp [mapSet, valuesGet, h]
    · simp [mapSet, h2, valuesGet, ih]

theorem applyArgs_append (xs ys : List callArg) (call : callBuilder) :
    applyArgs (xs ++ ys) call =
      match applyArgs xs call with
      | Except.ok b => applyArgs ys b
      | Except.error e => Except.error e := by
  induction xs generalizing call with
  | nil => rfl
  | cons hd tl ih =>
    simp only [List.cons_append, applyArgs]
    cases hd call
    · rfl
    · exact ih _

/-! Claim theorems. -/

/-- C1: the retryability flag of the defined call statuses is true
exactly for started, rate-limited and server-error, and false for
completed, bad request, state conflict, failed validation, not found,
unauthenticated and unauthorized. -/
theorem claim_C1_retryable_flags :
    StatusStarted.Retryable = true ∧
    StatusRateLimited.Retryable = true ∧
    StatusServerError.Retryable = true ∧
    StatusCompleted.Retryable = false ∧
    StatusBadRequest.Retryable = false ∧
    StatusStateConflict.Retryable = false ∧
    StatusFailedValidation.Retryable = false ∧
    StatusNotFound.Retryable = false ∧
    StatusUnauthenticated.Retryable = false ∧
    StatusUnauthorized.Retryable = false :=
  ⟨rfl, rfl, rfl, rfl, rfl, rfl, rfl, rfl, rfl, rfl⟩

/-- C2: evaluation of the code at the failing input. On an HTTP 400
response, `Client.RefundTransfer` and `Client.ReverseTransfer` return the
nil error (the blank-discarded `json.Unmarshal` into a nil `error`
interface never populates it), while the neighbouring failure branch 422
does return a named error, against the spec statement that every
non-success outcome yields a non-nil classified or named error. -/
theorem claim_C2_http400_nil_error :
    (Client.RefundTransfer true 3
      (Except.ok { statusCode := 400,
                   unmarshalBody := (Refund.zero, none) })).2 = none ∧
    (Client.ReverseTransfer 3
      (Except.ok { statusCode := 400,
                   unmarshalBody := (CanceledTransfer.zero, none) })).2
      = none ∧
    unmarshalIntoErrorInterface = none ∧
    (Client.RefundTransfer true 3
      (Except.ok { statusCode := 422,
                   unmarshalBody := (Refund.zero, none) })).2
      = some GoError.errRequestBody :=
  ⟨rfl, rfl, rfl, rfl⟩

/-- C3: `CompletedNilOrError` returns the nil error exactly on the
completed status; on completed, `CompletedObjectOrError` and
`CompletedListOrError` return the unmarshal outcome (the decoded object
or list when decoding succeeds), an object or list is only ever returned
on the completed status, and on every non-completed status all three
combinators return the classified error together with the nil object or
nil slice. -/
theorem claim_C3_completed_combinators :
    ∀ (α : Type) (resp : CallResponse α),
    (CompletedNilOrError resp = none ↔ resp.Status = StatusCompleted) ∧
    (resp.Status = StatusCompleted →
      CompletedObjectOrError resp = UnmarshalObjectResponse resp) ∧
    (∀ a : α, (CompletedObjectOrError resp).1 = some a →
      resp.Status = StatusCompleted ∧
      resp.unmarshalObject = Except.ok a ∧
      (CompletedObjectOrError resp).2 = none) ∧
    (resp.Status = StatusCompleted →
      CompletedListOrError resp = UnmarshalListResponse resp) ∧
    (∀ l : List α, (CompletedListOrError resp).1 = some l →
      resp.Status = StatusCompleted ∧
      resp.unmarshalList = Except.ok l ∧
      (CompletedListOrError resp).2 = none) ∧
    (resp.Status ≠ StatusCompleted →
      CompletedNilOrError resp = some resp.Error ∧
      CompletedObjectOrError resp = (none, some resp.Error) ∧
      CompletedListOrError resp = (none, some resp.Error)) := by
  intro α resp
  by_cases h : resp.Status = StatusCompleted
  · refine ⟨by simp [CompletedNilOrError, h], fun _ => by
      simp [CompletedObjectOrError, h], ?_, fun _ => by
      simp [CompletedListOrError, h], ?_, fun hn => absurd h hn⟩
    · intro a ha
      cases hu : resp.unmarshalObject with
      | error e =>
        simp [CompletedObjectOrError, h, UnmarshalObjectResponse, hu] at ha
      | ok x =>
        simp [CompletedObjectOrError, h, UnmarshalObjectResponse, hu] at ha
        exact ⟨h, congrArg Except.ok ha, by
          simp [CompletedObjectOrError, h, UnmarshalObjectResponse, hu]⟩
    · intro l hl
      cases hu : resp.unmarshalList with
      | error e =>
        simp [CompletedListOrError, h, UnmarshalListResponse, hu] at hl
      | ok x =>
        simp [CompletedListOrError, h, UnmarshalListResponse, hu] at hl
        exact ⟨h, congrArg Except.ok hl, by
          simp [CompletedListOrError, h, UnmarshalListResponse, hu]⟩
  · refine ⟨by simp [CompletedNilOrError, h], fun hc => absurd hc h,
      ?_, fun hc => absurd hc h, ?_, fun _ => by
      simp [CompletedNilOrError, CompletedObjectOrError,
            CompletedListOrError, h]⟩
    · intro a ha
      simp [CompletedObjectOrError, h] at ha
    · intro l hl
      simp [CompletedListOrError, h] at hl

/-- Witness for C3 at concrete responses. -/
theorem claim_C3_completed_combinators_witness :
    (CompletedObjectOrError respC3completed =
      UnmarshalObjectResponse respC3completed) ∧
    (CompletedListOrError respC3completed =
      UnmarshalListResponse respC3completed) ∧
    (CompletedNilOrError respC3notFound = some respC3notFound.Error ∧
     CompletedObjectOrError respC3notFound =
       (none, some respC3notFound.Error) ∧
     CompletedListOrError respC3notFound =
       (none, some respC3notFound.Error)) :=
  ⟨(claim_C3_completed_combinators Nat respC3completed).2.1 rfl,
   (claim_C3_completed_combinators Nat respC3completed).2.2.2.1 rfl,
   (claim_C3_completed_combinators Nat respC3notFound).2.2.2.2.2
     (by decide)⟩

/-- C4: on a create-transfer call with `isSync = true`, a response that
classifies as completed and decodes returns the decoded synchronous
transfer together with the nil asynchronous result, a response that
classifies as started and decodes returns the nil synchronous result
together with the decoded asynchronous handle, and an
`AsynchronousTransfer` value consists of nothing beyond its `transferID`
and `createdOn` fields. -/
theorem claim_C4_create_transfer_sync_vs_started :
    ∀ (resp : TransferCallResponse) (st : SynchronousTransfer)
      (asyncT : AsynchronousTransfer),
    (resp.Status = StatusCompleted → resp.unmarshalSync = Except.ok st →
      Client.CreateTransfer true (Except.ok resp) = (some st, none, none)) ∧
    (resp.Status = StatusStarted → resp.unmarshalAsync = Except.ok asyncT →
      Client.CreateTransfer true (Except.ok resp) =
        (none, some asyncT, none)) ∧
    (asyncT = { transferID := asyncT.transferID,
                createdOn := asyncT.createdOn }) := by
  intro resp st asyncT
  have hne : StatusStarted ≠ StatusCompleted := by decide
  refine ⟨?_, ?_, rfl⟩
  · intro h1 h2
    simp [Client.CreateTransfer, h1, UnmarshalSyncResponse, h2]
  · intro h1 h2
    simp [Client.CreateTransfer, h1, hne, UnmarshalAsyncResponse, h2]

/-- Witness for C4 at concrete responses. -/
theorem claim_C4_create_transfer_sync_vs_started_witness :
    Client.CreateTransfer true (Except.ok respC4completed) =
      (some SynchronousTransfer.zero, none, none) ∧
    Client.CreateTransfer true (Except.ok respC4started) =
      (none, some { transferID := "t-1", createdOn := GoTime.zero },
        none) :=
  ⟨(claim_C4_create_transfer_sync_vs_started respC4completed
      SynchronousTransfer.zero
      { transferID := "t-1", createdOn := GoTime.zero }).1 rfl rfl,
   (claim_C4_create_transfer_sync_vs_started respC4started
      SynchronousTransfer.zero
      { transferID := "t-1", createdOn := GoTime.zero }).2.1 rfl rfl⟩

/-- C5: a state-conflict classification on create and an HTTP 409 on
refund or reverse return the idempotency-specific named error
`ErrXIdempotencyKey`, which is distinct from every generic default
failure error. -/
theorem claim_C5_idempotency_errors :
    (∀ (isSync : Bool) (resp : TransferCallResponse),
      resp.Status = StatusStateConflict →
      Client.CreateTransfer isSync (Except.ok resp) =
        (none, none, some GoError.errXIdempotencyKey)) ∧
    (∀ (isSync : Bool) (amount : Int) (r : HttpResponse Refund),
      r.statusCode = 409 →
      Client.RefundTransfer isSync amount (Except.ok r) =
        (Refund.zero, some GoError.errXIdempotencyKey)) ∧
    (∀ (amount : Int) (r : HttpResponse CanceledTransfer),
      r.statusCode = 409 →
      Client.ReverseTransfer amount (Except.ok r) =
        (CanceledTransfer.zero, some GoError.errXIdempotencyKey)) ∧
    (∀ n : Int, GoError.errXIdempotencyKey ≠ GoError.errDefault n) := by
  have h1 : StatusStateConflict ≠ StatusCompleted := by decide
  have h2 : StatusStateConflict ≠ StatusStarted := by decide
  refine ⟨?_, ?_, ?_, ?_⟩
  · intro isSync resp h
    simp [Client.CreateTransfer, h, h1, h2]
  · intro isSync amount r h
    simp [Client.RefundTransfer, h]
  · intro amount r h
    simp [Client.ReverseTransfer, h]
  · intro n h
    exact GoError.noConfusion h

/-- Witness for C5 at concrete responses. -/
theorem claim_C5_idempotency_errors_witness :
    Client.CreateTransfer true (Except.ok respC5conflict) =
      (none, none, some GoError.errXIdempotencyKey) ∧
    Client.RefundTransfer false 5
      (Except.ok { statusCode := 409,
                   unmarshalBody := (Refund.zero, none) }) =
      (Refund.zero, some GoError.errXIdempotencyKey) ∧
    Client.ReverseTransfer 5
      (Except.ok { statusCode := 409,
                   unmarshalBody := (CanceledTransfer.zero, none) }) =
      (CanceledTransfer.zero, some GoError.errXIdempotencyKey) ∧
    GoError.errXIdempotencyKey ≠ GoError.errDefault 409 :=
  ⟨claim_C5_idempotency_errors.1 true respC5conflict rfl,
   claim_C5_idempotency_errors.2.1 false 5 _ rfl,
   claim_C5_idempotency_errors.2.2.1 5 _ rfl,
   claim_C5_idempotency_errors.2.2.2 409⟩

theorem length_filter_addIf (c : Prop) [Decidable c]
    (vs : List (String × String)) (k v : String)
    (f : String × String → Bool) :
    ((addIf c vs k v).filter f).length =
      (vs.filter f).length +
        (if c then (if f (k, v) then 1 else 0) else 0) := by
  unfold addIf valuesAdd
  split
  · rw [List.filter_append, List.length_append]
    by_cases hf : f (k, v) = true
    · simp [List.filter, hf]
    · simp [List.filter, hf]
  · simp

/-- C6 counterexample: the claim as stated fails on the payload whose
`Count` is `-1`: that field is not the zero value of its type, yet the
query built by `ListTransfers` carries no `count` parameter, because the
source guards the parameter with `Count > 0`. -/
theorem claim_C6_counterexample :
    ¬ ((valuesGet
          (ListTransfersValues
            { AccountIDs := [], Status := "", StartDateTime := GoTime.zero,
              EndDateTime := GoTime.zero, GroupID := "", Count := -1,
              Skip := 0, Refunded := false, Disputed := false })
          "count").isSome ↔ ¬ ((-1 : Int) = 0)) := by
  decide

/-- C6 (amended): every filter except `count` and `skip` appears in the
query values exactly when its field is not the zero value, with its value
verbatim (times formatted RFC3339, account IDs joined with a comma into
at most one `accountIDs` parameter), while `count` and `skip` appear
exactly when strictly positive — a zero or negative count or skip is
omitted. -/
theorem claim_C6_query_values :
    ∀ p : SearchQueryPayload,
    valuesGet (ListTransfersValues p) "accountIDs" =
      (if p.AccountIDs.length > 0
       then some (String.intercalate "," p.AccountIDs) else none) ∧
    valuesGet (ListTransfersValues p) "status" =
      (if p.Status ≠ "" then some p.Status else none) ∧
    valuesGet (ListTransfersValues p) "startDateTime" =
      (if p.StartDateTime.IsZero = false
       then some p.StartDateTime.formatRFC3339 else none) ∧
    valuesGet (ListTransfersValues p) "endDateTime" =
      (if p.EndDateTime.IsZero = false
       then some p.EndDateTime.formatRFC3339 else none) ∧
    valuesGet (ListTransfersValues p) "groupID" =
      (if p.GroupID ≠ "" then some p.GroupID else none) ∧
    valuesGet (ListTransfersValues p) "count" =
      (if p.Count > 0 then some (toString p.Count) else none) ∧
    valuesGet (ListTransfersValues p) "skip" =
      (if p.Skip > 0 then some (toString p.Skip) else none) ∧
    valuesGet (ListTransfersValues p) "refunded" =
      (if p.Refunded = true then some "true" else none) ∧
    valuesGet (ListTransfersValues p) "disputed" =
      (if p.Disputed = true then some "true" else none) ∧
    ((ListTransfersValues p).filter
      (fun kv => kv.1 == "accountIDs")).length ≤ 1 := by
  intro p
  refine ⟨?_, ?_, ?_, ?_, ?_, ?_, ?_, ?_, ?_, ?_⟩
  · simp only [ListTransfersValues]
    rw [valuesGet_addIf_ne _ _ _ _ _ (by decide),
        valuesGet_addIf_ne _ _ _ _ _ (by decide),
        valuesGet_addIf_ne _ _ _ _ _ (by decide),
        valuesGet_addIf_ne _ _ _ _ _ (by decide),
        valuesGet_addIf_ne _ _ _ _ _ (by decide),
        valuesGet_addIf_ne _ _ _ _ _ (by decide),
        valuesGet_addIf_ne _ _ _ _ _ (by decide),
        valuesGet_addIf_ne _ _ _ _ _ (by decide),
        valuesGet_addIf_eq _ _ _ _ (by rfl)]
  · simp only [ListTransfersValues]
    rw [valuesGet_addIf_ne _ _ _ _ _ (by decide),
        valuesGet_addIf_ne _ _ _ _ _ (by decide),
        valuesGet_addIf_ne _ _ _ _ _ (by decide),
        valuesGet_addIf_ne _ _ _ _ _ (by decide),
        valuesGet_addIf_ne _ _ _ _ _ (by decide),
        valuesGet_addIf_ne _ _ _ _ _ (by decide),
        valuesGet_addIf_ne _ _ _ _ _ (by decide),
        valuesGet_addIf_eq _ _ _ _
          (by rw [valuesGet_addIf_ne _ _ _ _ _ (by decide)]; rfl)]
  · simp only [ListTransfersValues]
    rw [valuesGet_addIf_ne _ _ _ _ _ (by decide),
        valuesGet_addIf_ne _ _ _ _ _ (by decide),
        valuesGet_addIf_ne _ _ _ _ _ (by decide),
        valuesGet_addIf_ne _ _ _ _ _ (by decide),
        valuesGet_addIf_ne _ _ _ _ _ (by decide),
        valuesGet_addIf_ne _ _ _ _ _ (by decide),
        valuesGet_addIf_eq _ _ _ _
          (by rw [valuesGet_addIf_ne _ _ _ _ _ (by decide),
                  valuesGet_addIf_ne _ _ _ _ _ (by decide)]; rfl)]
  · simp only [ListTransfersValues]
    rw [valuesGet_addIf_ne _ _ _ _ _ (by decide),
        valuesGet_addIf_ne _ _ _ _ _ (by decide),
        valuesGet_addIf_ne _ _ _ _ _ (by decide),
        valuesGet_addIf_ne _ _ _ _ _ (by decide),
        valuesGet_addIf_ne _ _ _ _ _ (by decide),
        valuesGet_addIf_eq _ _ _ _
          (by rw [valuesGet_addIf_ne _ _ _ _ _ (by decide),
                  valuesGet_addIf_ne _ _ _ _ _ (by decide),
                  valuesGet_addIf_ne _ _ _ _ _ (by decide)]; rfl)]
  · simp only [ListTransfersValues]
    rw [valuesGet_addIf_ne _ _ _ _ _ (by decide),
        valuesGet_addIf_ne _ _ _ _ _ (by decide),
        valuesGet_addIf_ne _ _ _ _ _ (by decide),
        valuesGet_addIf_ne _ _ _ _ _ (by decide),
        valuesGet_addIf_eq _ _ _ _
          (by rw [valuesGet_addIf_ne _ _ _ _ _ (by decide),
                  valuesGet_addIf_ne _ _ _ _ _ (by decide),
                  valuesGet_addIf_ne _ _ _ _ _ (by decide),
                  valuesGet_addIf_ne _ _ _ _ _ (by decide)]; rfl)]
  · simp only [ListTransfersValues]
    rw [valuesGet_addIf_ne _ _ _ _ _ (by decide),
        valuesGet_addIf_ne _ _ _ _ _ (by decide),
        valuesGet_addIf_ne _ _ _ _ _ (by decide),
        valuesGet_addIf_eq _ _ _ _
          (by rw [valuesGet_addIf_ne _ _ _ _ _ (by decide),
                  valuesGet_addIf_ne _ _ _ _ _ (by decide),
                  valuesGet_addIf_ne _ _ _ _ _ (by decide),
                  valuesGet_addIf_ne _ _ _ _ _ (by decide),
                  valuesGet_addIf_ne _ _ _ _ _ (by decide)]; rfl)]
  · simp only [ListTransfersValues]
    rw [valuesGet_addIf_ne _ _ _ _ _ (by decide),
        valuesGet_addIf_ne _ _ _ _ _ (by decide),
        valuesGet_addIf_eq _ _ _ _
          (by rw [valuesGet_addIf_ne _ _ _ _ _ (by decide),
                  valuesGet_addIf_ne _ _ _ _ _ (by decide),
                  valuesGet_addIf_ne _ _ _ _ _ (by decide),
                  valuesGet_addIf_ne _ _ _ _ _ (by decide),
                  valuesGet_addIf_ne _ _ _ _ _ (by decide),
                  valuesGet_addIf_ne _ _ _ _ _ (by decide)]; rfl)]
  · simp only [ListTransfersValues]
    rw [valuesGet_addIf_ne _ _ _ _ _ (by decide),
        valuesGet_addIf_eq _ _ _ _
          (by rw [valuesGet_addIf_ne _ _ _ _ _ (by decide),
                  valuesGet_addIf_ne _ _ _ _ _ (by decide),
                  valuesGet_addIf_ne _ _ _ _ _ (by decide),
                  valuesGet_addIf_ne _ _ _ _ _ (by decide),
                  valuesGet_addIf_ne _ _ _ _ _ (by decide),
                  valuesGet_addIf_ne _ _ _ _ _ (by decide),
                  valuesGet_addIf_ne _ _ _ _ _ (by decide)]; rfl)]
  · simp only [ListTransfersValues]
    rw [valuesGet_addIf_eq _ _ _ _
          (by rw [valuesGet_addIf_ne _ _ _ _ _ (by decide),
                  valuesGet_addIf_ne _ _ _ _ _ (by decide),
                  valuesGet_addIf_ne _ _ _ _ _ (by decide),
                  valuesGet_addIf_ne _ _ _ _ _ (by decide),
                  valuesGet_addIf_ne _ _ _ _ _ (by decide),
                  valuesGet_addIf_ne _ _ _ _ _ (by decide),
                  valuesGet_addIf_ne _ _ _ _ _ (by decide),
                  valuesGet_addIf_ne _ _ _ _ _ (by decide)]; rfl)]
  · simp only [ListTransfersValues]
    rw [length_filter_addIf, length_filter_addIf, length_filter_addIf,
        length_filter_addIf, length_filter_addIf, length_filter_addIf,
        length_filter_addIf, length_filter_addIf, length_filter_addIf]
    simp only [List.filter_nil, List.length_nil]
    norm_num
    split <;> split <;> simp

/-- C7: the endpoint-specific status overrides map to their own named
errors: create-bank-account on a state conflict returns
`ErrDuplicateBankAccount`, micro-deposit confirmation returns
`ErrNoMicroDeposit` on not found and `ErrAmountIncorrect` on a state
conflict, and each of these named errors is distinct from every generic
classified error. -/
theorem claim_C7_domain_specific_errors :
    (∀ resp : CallResponse BankAccount,
      resp.Status = StatusStateConflict →
      Client.CreateBankAccount (Except.ok resp) =
        (none, some GoError.errDuplicateBankAccount)) ∧
    (∀ resp : CallResponse Unit,
      resp.Status = StatusNotFound →
      Client.MicroDepositConfirm (Except.ok resp) =
        some GoError.errNoMicroDeposit) ∧
    (∀ resp : CallResponse Unit,
      resp.Status = StatusStateConflict →
      Client.MicroDepositConfirm (Except.ok resp) =
        some GoError.errAmountIncorrect) ∧
    (∀ s : String, GoError.errDuplicateBankAccount ≠ GoError.classified s) ∧
    (∀ s : String, GoError.errNoMicroDeposit ≠ GoError.classified s) ∧
    (∀ s : String, GoError.errAmountIncorrect ≠ GoError.classified s) := by
  have h1 : StatusStateConflict ≠ StatusCompleted := by decide
  have h2 : StatusNotFound ≠ StatusCompleted := by decide
  have h3 : StatusStateConflict ≠ StatusNotFound := by decide
  refine ⟨?_, ?_, ?_, ?_, ?_, ?_⟩
  · intro resp h
    simp [Client.CreateBankAccount, h, h1]
  · intro resp h
    simp [Client.MicroDepositConfirm, h, h2]
  · intro resp h
    simp [Client.MicroDepositConfirm, h, h1, h3]
  · intro s h
    exact GoError.noConfusion h
  · intro s h
    exact GoError.noConfusion h
  · intro s h
    exact GoError.noConfusion h

/-- Witness for C7 at concrete responses. -/
theorem claim_C7_domain_specific_errors_witness :
    Client.CreateBankAccount (Except.ok respC7conflict) =
      (none, some GoError.errDuplicateBankAccount) ∧
    Client.MicroDepositConfirm (Except.ok respC7notFound) =
      some GoError.errNoMicroDeposit ∧
    Client.MicroDepositConfirm (Except.ok respC7amount) =
      some GoError.errAmountIncorrect ∧
    GoError.errDuplicateBankAccount ≠ GoError.classified "state_conflict" :=
  ⟨claim_C7_domain_specific_errors.1 respC7conflict rfl,
   claim_C7_domain_specific_errors.2.1 respC7notFound rfl,
   claim_C7_domain_specific_errors.2.2.1 respC7amount rfl,
   claim_C7_domain_specific_errors.2.2.2.1 "state_conflict"⟩

/-- C8: `newCall` applies the endpoint option first and then the caller
options strictly in the order given (so on a header map a later binding
overwrites an earlier one), and when an option fails the application
stops there: the error is returned unchanged whatever options follow, and
no builder is produced. -/
theorem claim_C8_newCall_order_and_failfast :
    (∀ (endpoint : EndpointArg) (args : List callArg),
      prependArgs args [endpoint] = endpoint :: args ∧
      newCall endpoint args = applyArgs (endpoint :: args)
        initialCallBuilder) ∧
    (∀ (endpoint : EndpointArg) (pre post : List callArg) (bad : callArg)
       (b : callBuilder) (e : GoError),
      applyArgs (endpoint :: pre) initialCallBuilder = Except.ok b →
      bad b = Except.error e →
      newCall endpoint (pre ++ bad :: post) = Except.error e) ∧
    (∀ (m : List (String × String)) (k v1 v2 : String),
      valuesGet (mapSet (mapSet m k v1) k v2) k = some v2) := by
  refine ⟨?_, ?_, ?_⟩
  · intro endpoint args
    exact ⟨rfl, rfl⟩
  · intro endpoint pre post bad b e h1 h2
    show applyArgs (prependArgs (pre ++ bad :: post) [endpoint])
      initialCallBuilder = Except.error e
    have hsplit : prependArgs (pre ++ bad :: post) [endpoint] =
        (endpoint :: pre) ++ bad :: post := rfl
    rw [hsplit, applyArgs_append, h1]
    show (match bad b with
          | Except.error e => Except.error e
          | Except.ok call1 => applyArgs post call1) = Except.error e
    rw [h2]
  · intro m k v1 v2
    exact valuesGet_mapSet_self _ _ _

/-- Witness for C8: a five-option call whose third option fails stops
there and surfaces the serialization error, the option after it never
applied. -/
theorem claim_C8_newCall_order_and_failfast_witness :
    newCall (Endpoint "POST" pathTransfers [])
      ([AcceptJson] ++ badC8 :: [WaitFor "rail-response"]) =
      Except.error (GoError.jsonError "boom") :=
  claim_C8_newCall_order_and_failfast.2.1
    (Endpoint "POST" pathTransfers []) [AcceptJson] [WaitFor "rail-response"]
    badC8 builderC8 (GoError.jsonError "boom") rfl rfl

/-- Header-preservation invariant used by C9: applying any sequence of
the option constructors the source defines never introduces a
Content-Type header. -/
theorem contentType_invariant :
    ∀ (args : List builderArg) (call cb : callBuilder),
    valuesGet call.headers "Content-Type" = none →
    applyArgs (args.map builderArg.toCallArg) call = Except.ok cb →
    valuesGet cb.headers "Content-Type" = none := by
  intro args
  induction args with
  | nil =>
    intro call cb hnone happ
    simp only [List.map_nil, applyArgs] at happ
    cases happ
    exact hnone
  | cons hd tl ih =>
    intro call cb hnone happ
    simp only [List.map_cons, applyArgs] at happ
    cases hhd : hd.toCallArg call with
    | error e => rw [hhd] at happ; exact absurd happ (by simp)
    | ok call1 =>
      rw [hhd] at happ
      refine ih call1 cb ?_ happ
      cases hd with
      | endpointArg method pathFmt args0 =>
        cases hhd
        exact hnone
      | jsonBodyArg marshalResult =>
        cases marshalResult with
        | error e => exact absurd hhd (by simp [builderArg.toCallArg, JsonBody])
        | ok payload =>
          simp only [builderArg.toCallArg, JsonBody] at hhd
          cases hhd
          rw [valuesGet_mapSet_ne _ _ _ _ (by decide)]
          exact hnone
      | acceptJsonArg =>
        simp only [builderArg.toCallArg, AcceptJson] at hhd
        cases hhd
        rw [valuesGet_mapSet_ne _ _ _ _ (by decide)]
        exact hnone
      | waitForArg state =>
        simp only [builderArg.toCallArg, WaitFor] at hhd
        cases hhd
        rw [valuesGet_mapSet_ne _ _ _ _ (by decide)]
        exact hnone

/-- C9: on a marshalling success, `JsonBody` sets the header whose key is
literally `Context-Type` (not `Content-Type`) to `application/json` and
stores the marshalled bytes as the body; no option the source defines
ever changes a `Content-Type` header, and a call built by `newCall` from
these options carries no `Content-Type` header at all. -/
theorem claim_C9_context_type_header :
    (∀ (payload : List Nat) (call : callBuilder),
      JsonBody (Except.ok payload) call =
        Except.ok { call with
          headers := mapSet call.headers "Context-Type" "application/json",
          body := some payload }) ∧
    (∀ (payload : List Nat) (call call1 : callBuilder),
      JsonBody (Except.ok payload) call = Except.ok call1 →
      valuesGet call1.headers "Context-Type" = some "application/json" ∧
      call1.body = some payload) ∧
    (∀ (a : builderArg) (call call1 : callBuilder),
      a.toCallArg call = Except.ok call1 →
      valuesGet call1.headers "Content-Type" =
        valuesGet call.headers "Content-Type") ∧
    (∀ (e : builderArg) (args : List builderArg) (cb : callBuilder),
      newCall e.toCallArg (args.map builderArg.toCallArg) = Except.ok cb →
      valuesGet cb.headers "Content-Type" = none) := by
  refine ⟨fun payload call => rfl, ?_, ?_, ?_⟩
  · intro payload call call1 h
    simp only [JsonBody] at h
    cases h
    exact ⟨valuesGet_mapSet_self _ _ _, rfl⟩
  · intro a call call1 h
    cases a with
    | endpointArg method pathFmt args0 =>
      cases h
      rfl
    | jsonBodyArg marshalResult =>
      cases marshalResult with
      | error e => exact absurd h (by simp [builderArg.toCallArg, JsonBody])
      | ok payload =>
        simp only [builderArg.toCallArg, JsonBody] at h
        cases h
        exact valuesGet_mapSet_ne _ _ _ _ (by decide)
    | acceptJsonArg =>
      simp only [builderArg.toCallArg, AcceptJson] at h
      cases h
      exact valuesGet_mapSet_ne _ _ _ _ (by decide)
    | waitForArg state =>
      simp only [builderArg.toCallArg, WaitFor] at h
      cases h
      exact valuesGet_mapSet_ne _ _ _ _ (by decide)
  · intro e args cb h
    have hcall : newCall e.toCallArg (args.map builderArg.toCallArg) =
        applyArgs ((e :: args).map builderArg.toCallArg)
          initialCallBuilder := rfl
    rw [hcall] at h
    exact contentType_invariant (e :: args) initialCallBuilder cb rfl h

/-- Witness for C9 at a concrete call: building a POST with accept-JSON
and a JSON body yields a builder whose headers hold `Context-Type` and no
`Content-Type`. -/
theorem claim_C9_context_type_header_witness :
    JsonBody (Except.ok [123, 125])
      { method := "", path := "", params := [], headers := [],
        token := none, body := none } =
      Except.ok { method := "", path := "", params := [],
                  headers := [("Context-Type", "application/json")],
                  token := none, body := some [123, 125] } ∧
    valuesGet builderC9.headers "Content-Type" = none :=
  ⟨claim_C9_context_type_header.1 [123, 125]
     { method := "", path := "", params := [], headers := [],
       token := none, body := none },
   claim_C9_context_type_header.2.2.2
     (builderArg.endpointArg "POST" pathTransfers [])
     [builderArg.acceptJsonArg, builderArg.jsonBodyArg (Except.ok [1, 2])]
     builderC9 rfl⟩

/-- C10: `GetBankAccount` and `DeleteBankAccount` never use their
`bankAccountID` parameter: for a fixed account ID, any two bank-account
IDs produce the identical request builder and the identical result. -/
theorem claim_C10_bank_account_id_unused :
    ∀ (accountID b1 b2 : String)
      (resp : Except GoError (CallResponse BankAccount))
      (respd : Except GoError (CallResponse Unit)),
    GetBankAccountRequest accountID b1 = GetBankAccountRequest accountID b2 ∧
    Client.GetBankAccount accountID b1 resp =
      Client.GetBankAccount accountID b2 resp ∧
    DeleteBankAccountRequest accountID b1 =
      DeleteBankAccountRequest accountID b2 ∧
    Client.DeleteBankAccount accountID b1 respd =
      Client.DeleteBankAccount accountID b2 respd :=
  fun _ _ _ _ _ => ⟨rfl, rfl, rfl, rfl⟩

end Moov
